import Mathlib

/-!
Verification of the GPT-SoVITS synthesis orchestrator (src/lib.rs) against its
specification.

Shallow embedding conventions:
  * tch tensors are modelled by their flat payload (a list of integer samples);
    shape-only operations (unsqueeze, to_device) are the identity on the
    payload, and Tensor::cat along dim 0 is concatenation of payloads.
  * anyhow::Result is Except String; a Rust panic (unwrap / unreachable!) is
    distinguished from Err by the POutcome type where the difference matters.
  * External tch entry points (CModule::load_on_device, forward_ts, method_is)
    are oracles: functions supplied as parameters or carried in the structures,
    exactly where the source holds the corresponding handle.
  * The repository modules text:: and symbols:: are not part of the studied
    source file; their entry points (split_text, get_phone_and_bert, SYMBOLS,
    G2PW_TOKENIZER) are taken as abstract parameters.
  * HashMap<String, Speaker> is modelled as a function String → Option Speaker;
    HashMap::insert replaces the previous binding of a key, which the function
    update models exactly.
  * tch::no_grad wraps a closure and is transparent to the values computed,
    so it is modelled as the identity.
-/

namespace GPTSovitsRs

/-- Audio / feature tensor, modelled by its flat payload. -/
structure Tensor where
  data : List Int
deriving Repr, DecidableEq

/-- Tensor::from_slice. -/
def Tensor.from_slice (samples : List Int) : Tensor := ⟨samples⟩

/-- Tensor::to_device: moves data between devices, payload unchanged. -/
def Tensor.to_device (t : Tensor) : Tensor := t

/-- Tensor::unsqueeze(0): adds a leading batch dimension, payload unchanged. -/
def Tensor.unsqueeze (t : Tensor) : Tensor := t

/-- Tensor::cat(&audios, 0): concatenation along the time axis (dim 0). -/
def Tensor.cat (ts : List Tensor) : Tensor := ⟨(ts.map Tensor.data).flatten⟩

/-- tch::Device (only the variants the pipeline distinguishes). -/
inductive Device where
  | Cpu : Device
  | Cuda : Nat → Device
deriving Repr, DecidableEq

/-- tch IValue, restricted to the constructors exchanged with method_is. -/
inductive IValue where
  | tensor : Tensor → IValue
  | int : Int → IValue
deriving Repr, DecidableEq

/-- tch::CModule: a loaded TorchScript module.  Its behaviour (forward_ts and
named-method calls) is an oracle carried with the handle; `training` records
the eval/train flag toggled by set_eval. -/
structure CModule where
  forward_ts : List Tensor → Except String Tensor
  method_is : String → List IValue → Except String IValue
  training : Bool

/-- CModule::set_eval. -/
def CModule.set_eval (m : CModule) : CModule :=
  { m with training := false }

/-- tokenizers::Tokenizer (opaque external asset). -/
structure Tokenizer where
  id : Nat
deriving Repr, DecidableEq

/-- text::CNBertModel: either empty (default) or a loaded bert + tokenizer. -/
structure CNBertModel where
  bert : Option (CModule × Tokenizer)

/-- CNBertModel::default(). -/
def CNBertModel.default : CNBertModel := ⟨none⟩

/-- CNBertModel::new(bert, tokenizer). -/
def CNBertModel.new (bert : CModule) (tok : Tokenizer) : CNBertModel :=
  ⟨some (bert, tok)⟩

/-- text::g2pw::G2PWConverter (opaque: its internals live outside the studied
source). -/
structure G2PWConverter where
  id : Nat
deriving Repr, DecidableEq

/-- G2PWConverter::empty(). -/
def G2PWConverter.empty : G2PWConverter := ⟨0⟩

/-- text::g2p_en::G2PEnConverter, keyed by the resource path it was built
from. -/
structure G2PEnConverter where
  path : String
deriving Repr, DecidableEq

/-- G2PEnConverter::new(path). -/
def G2PEnConverter.new (path : String) : G2PEnConverter := ⟨path⟩

/-- text::g2p_jp::G2PJpConverter. -/
structure G2PJpConverter where
  id : Nat
deriving Repr, DecidableEq

/-- G2PJpConverter::new(). -/
def G2PJpConverter.new : G2PJpConverter := ⟨0⟩

/-- jieba_rs::Jieba word segmenter (opaque). -/
structure Jieba where
  id : Nat
deriving Repr, DecidableEq

/-- Jieba::new(). -/
def Jieba.new : Jieba := ⟨0⟩

/-- Speaker (src/lib.rs lines 73-82): the cached reference bundle plus the
per-speaker synthesis model handle. -/
structure Speaker where
  name : String
  gpt_sovits : CModule
  ref_text : String
  ssl_content : Tensor
  ref_audio_32k : Tensor
  ref_phone_seq : Tensor
  ref_bert_seq : Tensor

/-- Speaker::get_name. -/
def Speaker.get_name (s : Speaker) : String := s.name

/-- Speaker::get_ref_text. -/
def Speaker.get_ref_text (s : Speaker) : String := s.ref_text

/-- Speaker::get_ref_audio_32k. -/
def Speaker.get_ref_audio_32k (s : Speaker) : Tensor := s.ref_audio_32k

/-- Speaker::infer (src/lib.rs lines 97-108): forward_ts over the cached
reference bundle and the new phoneme/embedding sequences. -/
def Speaker.infer (s : Speaker) (text_phone_seq bert_seq : Tensor) :
    Except String Tensor :=
  s.gpt_sovits.forward_ts
    [s.ssl_content, s.ref_audio_32k, s.ref_phone_seq, text_phone_seq,
     s.ref_bert_seq, bert_seq]

/-- GPTSovits (src/lib.rs lines 111-125).  speakers is the
HashMap<String, Speaker> registry, modelled as a lookup function. -/
structure GPTSovits where
  zh_bert : CNBertModel
  g2pw : G2PWConverter
  g2p_en : G2PEnConverter
  g2p_jp : G2PJpConverter
  device : Device
  symbols : List (String × Int)
  ssl : CModule
  speakers : String → Option Speaker
  jieba : Jieba
  enable_jp : Bool

/-- Type of the external text front-end text::get_phone_and_bert(self, text):
it belongs to the repository's text module, which is outside the studied
source file, so it is kept abstract.  It receives the whole orchestrator
because the Rust function takes &GPTSovits. -/
def GetPhoneAndBert : Type :=
  GPTSovits → String → Except String (Tensor × Tensor)

/-- Type of the external segmenter crate::text::split_text(text, chunk_size)
from the text module (outside the studied source file). -/
def SplitText : Type :=
  String → Nat → List String

/-- GPTSovits::resample (src/lib.rs lines 198-213): delegates to the ssl
module's TorchScript method "resample"; a non-tensor return hits
unreachable!, modelled as an error. -/
def GPTSovits.resample (g : GPTSovits) (audio : Tensor) (sr target_sr : Nat) :
    Except String Tensor :=
  match g.ssl.method_is "resample"
      [IValue.tensor audio, IValue.int sr, IValue.int target_sr] with
  | .ok (IValue.tensor resampled) => .ok resampled
  | .ok _ => .error "unreachable"
  | .error e => .error e

/-- Normalization of the enrollment transcript (src/lib.rs lines 166-170):
ref_text.ends_with(['。', '.']) is a char-pattern test on the last character;
when it fails a '.' is appended. -/
def normalizeRefText (ref_text : String) : String :=
  if (ref_text.data.getLast? = some '。' ∨ ref_text.data.getLast? = some '.')
  then ref_text
  else ref_text ++ "."

/-- The fallible body of GPTSovits::create_speaker (src/lib.rs lines 161-191):
every step before the registry insertion, in source order, each ? an early
return. -/
def GPTSovits.buildSpeaker (load : String → Device → Except String CModule)
    (gpb : GetPhoneAndBert) (g : GPTSovits) (name : String)
    (gpt_sovits_path : String) (ref_audio_samples : List Int)
    (ref_audio_sr : Nat) (ref_text : String) : Except String Speaker := do
  let gpt_sovits ← load gpt_sovits_path g.device
  let gpt_sovits := gpt_sovits.set_eval
  let ref_text := normalizeRefText ref_text
  let ref_audio := ((Tensor.from_slice ref_audio_samples).to_device).unsqueeze
  let ref_audio_16k ← g.resample ref_audio ref_audio_sr 16000
  let ref_audio_32k ← g.resample ref_audio ref_audio_sr 32000
  let ssl_content ← g.ssl.forward_ts [ref_audio_16k]
  let pb ← gpb g ref_text
  pure { name := name, gpt_sovits := gpt_sovits, ref_text := ref_text,
         ssl_content := ssl_content, ref_audio_32k := ref_audio_32k,
         ref_phone_seq := pb.1, ref_bert_seq := pb.2 }

/-- HashMap::insert on the registry model: binds name to sp, replacing any
previous binding of that name. -/
def insertSpeaker (m : String → Option Speaker) (name : String)
    (sp : Speaker) : String → Option Speaker :=
  fun k => if k = name then some sp else m k

/-- GPTSovits::create_speaker (src/lib.rs lines 153-196).  The &mut self
method is modelled by returning the post-call state next to the Result: on
any early-return error the state is the unchanged receiver, since the only
mutation of self in the source is the final speakers.insert. -/
def GPTSovits.create_speaker (load : String → Device → Except String CModule)
    (gpb : GetPhoneAndBert) (g : GPTSovits) (name : String)
    (gpt_sovits_path : String) (ref_audio_samples : List Int)
    (ref_audio_sr : Nat) (ref_text : String) :
    Except String Unit × GPTSovits :=
  match g.buildSpeaker load gpb name gpt_sovits_path ref_audio_samples
      ref_audio_sr ref_text with
  | .error e => (.error e, g)
  | .ok speaker =>
      (.ok (), { g with speakers := insertSpeaker g.speakers name speaker })

/-- GPTSovits::infer (src/lib.rs lines 216-228). -/
def GPTSovits.infer (gpb : GetPhoneAndBert) (g : GPTSovits)
    (speaker target_text : String) : Except String Tensor := do
  match g.speakers speaker with
  | none => throw "speaker not found"
  | some sp => do
      let pb ← gpb g target_text
      let audio ← sp.infer pb.1 pb.2
      pure audio

/-- The for-loop of GPTSovits::segment_infer (src/lib.rs lines 245-248):
infer each fragment in order, ? propagating the first error, collecting the
audio chunks in fragment order. -/
def GPTSovits.inferChunks (gpb : GetPhoneAndBert) (g : GPTSovits)
    (speaker : String) : List String → Except String (List Tensor)
  | [] => .ok []
  | t :: ts => do
      let audio ← g.infer gpb speaker t
      let rest ← g.inferChunks gpb speaker ts
      pure (audio :: rest)

/-- GPTSovits::segment_infer (src/lib.rs lines 230-255). -/
def GPTSovits.segment_infer (st : SplitText) (gpb : GetPhoneAndBert)
    (g : GPTSovits) (speaker target_text : String)
    (split_chunk_size : Nat) : Except String Tensor :=
  let split_chunk_size := if split_chunk_size = 0 then 50 else split_chunk_size
  let chunks := st target_text split_chunk_size
  match g.inferChunks gpb speaker chunks with
  | .error e => .error e
  | .ok audios =>
      if audios.isEmpty then .error "no audio generated"
      else .ok (Tensor.cat audios)

/-- Outcome of a call that can also abort by panic (unwrap / unreachable!),
which anyhow::Result cannot represent. -/
inductive POutcome (α : Type) where
  | ok : α → POutcome α
  | err : String → POutcome α
  | panic : String → POutcome α

/-- GPTSovitsConfig (src/lib.rs lines 11-16). -/
structure GPTSovitsConfig where
  cn_setting : Option (String × String)
  g2p_en_path : String
  ssl_path : String
  enable_jp : Bool
deriving Repr, DecidableEq

/-- GPTSovitsConfig::new. -/
def GPTSovitsConfig.new (ssl_path g2p_en_path : String) : GPTSovitsConfig :=
  { cn_setting := none, g2p_en_path := g2p_en_path, ssl_path := ssl_path,
    enable_jp := false }

/-- GPTSovitsConfig::with_chinese. -/
def GPTSovitsConfig.with_chinese (c : GPTSovitsConfig)
    (g2pw_path cn_bert_path : String) : GPTSovitsConfig :=
  { c with cn_setting := some (g2pw_path, cn_bert_path) }

/-- GPTSovitsConfig::with_jp. -/
def GPTSovitsConfig.with_jp (c : GPTSovitsConfig) (enable_jp : Bool) :
    GPTSovitsConfig :=
  { c with enable_jp := enable_jp }

/-- The external loaders GPTSovitsConfig::build draws on: TorchScript module
loading, tokenizer parsing, the g2pw converter constructor, and the two
constants exported by the repository's text/symbols modules (which are outside
the studied source file). -/
structure BuildEnv where
  load_on_device : String → Device → Except String CModule
  tokenizer_from_str : String → Except String Tokenizer
  g2pw_new_with_device : String → Tokenizer → Device → Except String G2PWConverter
  g2pw_tokenizer_src : String
  symbols : List (String × Int)

/-- GPTSovitsConfig::build (src/lib.rs lines 37-70).  The Chinese-setting
block runs first and propagates its failures with ?; the ssl model load is
unwrap()ed, so its failure is a panic, not an Err. -/
def GPTSovitsConfig.build (env : BuildEnv) (c : GPTSovitsConfig)
    (device : Device) : POutcome GPTSovits :=
  let cn : Except String (CNBertModel × G2PWConverter) :=
    match c.cn_setting with
    | some (g2pw_path, cn_bert_path) => do
        let tokenizer ← match env.tokenizer_from_str env.g2pw_tokenizer_src with
          | .ok tok => Except.ok tok
          | .error e => Except.error ("load tokenizer error: " ++ e)
        let bert ← env.load_on_device cn_bert_path device
        let bert := bert.set_eval
        let cn_bert_model := CNBertModel.new bert tokenizer
        let g2pw ← env.g2pw_new_with_device g2pw_path tokenizer device
        pure (cn_bert_model, g2pw)
    | none => pure (CNBertModel.default, G2PWConverter.empty)
  match cn with
  | .error e => .err e
  | .ok (cn_bert, g2pw) =>
      match env.load_on_device c.ssl_path device with
      | .error e => .panic e
      | .ok ssl =>
          let ssl := ssl.set_eval
          .ok { zh_bert := cn_bert, g2pw := g2pw,
                g2p_en := G2PEnConverter.new c.g2p_en_path,
                g2p_jp := G2PJpConverter.new, device := device,
                symbols := env.symbols, ssl := ssl,
                speakers := fun _ => none, jieba := Jieba.new,
                enable_jp := c.enable_jp }

/-! Shared concrete fixtures used to instantiate theorems that carry
hypotheses. -/

/-- A module whose every external call fails. -/
def cmFail : CModule :=
  { forward_ts := fun _ => .error "forward failed",
    method_is := fun _ _ => .error "method failed",
    training := true }

/-- A module that concatenates the payloads of its forward inputs and
resamples by returning the audio argument unchanged. -/
def cmOk : CModule :=
  { forward_ts := fun inputs => .ok ⟨(inputs.map Tensor.data).flatten⟩,
    method_is := fun _ args =>
      match args with
      | IValue.tensor audio :: _ => .ok (IValue.tensor audio)
      | _ => .error "bad args",
    training := true }

/-- An orchestrator with an empty speaker registry and a failing ssl module. -/
def emptyG : GPTSovits :=
  { zh_bert := CNBertModel.default, g2pw := G2PWConverter.empty,
    g2p_en := G2PEnConverter.new "g2p_en", g2p_jp := G2PJpConverter.new,
    device := Device.Cpu, symbols := [], ssl := cmFail,
    speakers := fun _ => none, jieba := Jieba.new, enable_jp := false }

/-- A text front-end that phonemizes a fragment into its character count. -/
def gpb0 : GetPhoneAndBert :=
  fun _ t => .ok (⟨[(t.length : Int)]⟩, ⟨[0]⟩)

/-- A speaker whose synthesis model is cmOk. -/
def spOk : Speaker :=
  { name := "A", gpt_sovits := cmOk, ref_text := "ref.",
    ssl_content := ⟨[7]⟩, ref_audio_32k := ⟨[8]⟩,
    ref_phone_seq := ⟨[9]⟩, ref_bert_seq := ⟨[10]⟩ }

/-- An orchestrator whose registry maps "A" to spOk, with a working ssl
module. -/
def gA : GPTSovits :=
  { emptyG with ssl := cmOk,
                speakers := fun k => if k = "A" then some spOk else none }

/-- A segmenter that always produces the two fragments "ab" and "c". -/
def st2 : SplitText := fun _ _ => ["ab", "c"]

/-- A segmenter that always produces the single fragment "hello". -/
def st1 : SplitText := fun _ _ => ["hello"]

/-- A segmenter that always produces no fragment. -/
def st0 : SplitText := fun _ _ => []

/-! Helper lemmas about the segment_infer loop. -/

/-- The loop succeeds and returns exactly the given audio list when infer
succeeds pointwise, fragment i producing audio i. -/
theorem GPTSovits.inferChunks_ok_of_pointwise (gpb : GetPhoneAndBert)
    (g : GPTSovits) (speaker : String) :
    ∀ (chunks : List String) (audios : List Tensor),
      audios.length = chunks.length →
      (∀ i (hi : i < chunks.length) (ha : i < audios.length),
        g.infer gpb speaker (chunks.get ⟨i, hi⟩) = .ok (audios.get ⟨i, ha⟩)) →
      g.inferChunks gpb speaker chunks = .ok audios
  | [], [], _, _ => rfl
  | [], a :: as, hlen, _ => by simp at hlen
  | c :: cs, [], hlen, _ => by simp at hlen
  | c :: cs, a :: as, hlen, hpt => by
      have h0 := hpt 0 (by simp) (by simp)
      simp only [List.get] at h0
      have hrec := GPTSovits.inferChunks_ok_of_pointwise gpb g speaker cs as
        (by simpa using hlen)
        (fun i hi ha => by
          have := hpt (i + 1) (by simpa using hi) (by simpa using ha)
          simpa using this)
      simp [GPTSovits.inferChunks, h0, hrec, bind, Except.bind, pure, Except.pure, Functor.map, Except.map]

/-- The loop propagates the first failing fragment's error. -/
theorem GPTSovits.inferChunks_fail_fast (gpb : GetPhoneAndBert)
    (g : GPTSovits) (speaker : String) :
    ∀ (pre : List String) (c : String) (post : List String) (e : String),
      (∀ x ∈ pre, ∃ a, g.infer gpb speaker x = .ok a) →
      g.infer gpb speaker c = .error e →
      g.inferChunks gpb speaker (pre ++ c :: post) = .error e
  | [], c, post, e, _, hc => by
      simp [GPTSovits.inferChunks, hc, bind, Except.bind, pure, Except.pure, Functor.map, Except.map]
  | x :: pre, c, post, e, hpre, hc => by
      obtain ⟨a, ha⟩ := hpre x (by simp)
      have hrec := GPTSovits.inferChunks_fail_fast gpb g speaker pre c post e
        (fun y hy => hpre y (by simp [hy])) hc
      simp [GPTSovits.inferChunks, ha, hrec, bind, Except.bind, pure, Except.pure, Functor.map, Except.map]

/-- C1: for every enrolled speaker, target text and chunk size, segment_infer
runs infer on each fragment of the segmentation in fragment order, and when
every fragment succeeds it returns the concatenation of the per-fragment
audio buffers along the time axis in that same order. -/
theorem segment_infer_concatenates_in_order (st : SplitText)
    (gpb : GetPhoneAndBert) (g : GPTSovits) (speaker target_text : String)
    (n : Nat) (chunks : List String) (audios : List Tensor)
    (hchunks : st target_text (if n = 0 then 50 else n) = chunks)
    (hne : chunks ≠ [])
    (hlen : audios.length = chunks.length)
    (hok : ∀ i (hi : i < chunks.length) (ha : i < audios.length),
      g.infer gpb speaker (chunks.get ⟨i, hi⟩) = .ok (audios.get ⟨i, ha⟩)) :
    g.segment_infer st gpb speaker target_text n = .ok (Tensor.cat audios) := by
  have hloop := GPTSovits.inferChunks_ok_of_pointwise gpb g speaker chunks
    audios hlen hok
  have hA : audios.isEmpty = false := by
    cases audios with
    | nil =>
        exact absurd (List.length_eq_zero.mp hlen.symm) hne
    | cons a as => rfl
  simp [GPTSovits.segment_infer, hchunks, hloop, hA]

/-- Witness for C1 at a concrete two-fragment segmentation. -/
theorem segment_infer_concatenates_in_order_witness :
    GPTSovits.segment_infer st2 gpb0 gA "A" "abc" 10 =
      .ok (Tensor.cat [⟨[7, 8, 9, 2, 10, 0]⟩, ⟨[7, 8, 9, 1, 10, 0]⟩]) := by
  apply segment_infer_concatenates_in_order st2 gpb0 gA "A" "abc" 10
    ["ab", "c"] [⟨[7, 8, 9, 2, 10, 0]⟩, ⟨[7, 8, 9, 1, 10, 0]⟩] rfl
    (by simp) rfl ?_
  intro i hi ha
  match i with
  | 0 => rfl
  | 1 => rfl
  | n + 2 => simp at hi

/-- C2: segment_infer with max_chunk_size = 0 behaves identically to
max_chunk_size = 50: the value 0 is replaced by the default 50 before
segmentation. -/
theorem segment_infer_zero_defaults_to_fifty (st : SplitText)
    (gpb : GetPhoneAndBert) (g : GPTSovits) (speaker target_text : String) :
    g.segment_infer st gpb speaker target_text 0 =
      g.segment_infer st gpb speaker target_text 50 := rfl

/-- C3: if any single fragment's infer call fails, segment_infer returns that
fragment's error for the whole request and no partial audio result. -/
theorem segment_infer_fail_fast (st : SplitText) (gpb : GetPhoneAndBert)
    (g : GPTSovits) (speaker target_text : String) (n : Nat)
    (pre : List String) (c : String) (post : List String) (e : String)
    (hchunks : st target_text (if n = 0 then 50 else n) = pre ++ c :: post)
    (hpre : ∀ x ∈ pre, ∃ a, g.infer gpb speaker x = .ok a)
    (hc : g.infer gpb speaker c = .error e) :
    g.segment_infer st gpb speaker target_text n = .error e := by
  have hloop := GPTSovits.inferChunks_fail_fast gpb g speaker pre c post e
    hpre hc
  simp [GPTSovits.segment_infer, hchunks, hloop]

/-- Witness for C3: a missing speaker makes the single fragment fail and the
whole request returns that error. -/
theorem segment_infer_fail_fast_witness :
    GPTSovits.segment_infer st1 gpb0 emptyG "A" "hello" 10 =
      .error "speaker not found" :=
  segment_infer_fail_fast st1 gpb0 emptyG "A" "hello" 10 [] "hello" []
    "speaker not found" rfl (by simp) rfl

/-- Counterexample to C4 as stated: segmentation yields one fragment, its
(and hence every) infer call fails, yet segment_infer returns the fragment's
own error "speaker not found", not the "no audio generated" error the claim
requires for the all-calls-fail case. -/
theorem segment_infer_allfail_counterexample :
    st1 "hello" 10 = ["hello"] ∧
    GPTSovits.infer gpb0 emptyG "A" "hello" = .error "speaker not found" ∧
    GPTSovits.segment_infer st1 gpb0 emptyG "A" "hello" 10 ≠
      .error "no audio generated" := by
  refine ⟨rfl, rfl, fun hcontra => ?_⟩
  have h : GPTSovits.segment_infer st1 gpb0 emptyG "A" "hello" 10 =
      Except.error "speaker not found" := rfl
  rw [h] at hcontra
  injection hcontra with h2
  exact absurd h2 (by decide)

/-- C4 amended: if segmentation yields zero fragments (in particular for empty
input) segment_infer returns the "no audio generated" error rather than
succeeding; if the infer calls fail, it returns the first fragment's error —
in neither case does it succeed. -/
theorem segment_infer_no_silent_success (st : SplitText)
    (gpb : GetPhoneAndBert) (g : GPTSovits) (speaker target_text : String)
    (n : Nat) (c : String) (rest : List String) (e : String) :
    (st target_text (if n = 0 then 50 else n) = [] →
      g.segment_infer st gpb speaker target_text n =
        .error "no audio generated") ∧
    (st target_text (if n = 0 then 50 else n) = c :: rest →
      g.infer gpb speaker c = .error e →
      g.segment_infer st gpb speaker target_text n = .error e) := by
  constructor
  · intro h
    simp [GPTSovits.segment_infer, h, GPTSovits.inferChunks]
  · intro h hc
    have hloop := GPTSovits.inferChunks_fail_fast gpb g speaker [] c rest e
      (by simp) hc
    simp only [List.nil_append] at hloop
    simp [GPTSovits.segment_infer, h, hloop]

/-- Witness for C4 (amended): an empty segmentation gives the "no audio
generated" error, a failing fragment gives that fragment's error. -/
theorem segment_infer_no_silent_success_witness :
    GPTSovits.segment_infer st0 gpb0 gA "A" "x" 10 =
      .error "no audio generated" ∧
    GPTSovits.segment_infer st1 gpb0 emptyG "B" "hello" 10 =
      .error "speaker not found" :=
  ⟨(segment_infer_no_silent_success st0 gpb0 gA "A" "x" 10 "c" []
      "e").1 rfl,
   (segment_infer_no_silent_success st1 gpb0 emptyG "B" "hello" 10 "hello" []
      "speaker not found").2 rfl rfl⟩

/-- C5: infer with a speaker name absent from the registry (in particular on
an empty registry) returns the "speaker not found" error, not a crash. -/
theorem infer_missing_speaker_error (gpb : GetPhoneAndBert) (g : GPTSovits)
    (speaker target_text : String) (h : g.speakers speaker = none) :
    g.infer gpb speaker target_text = .error "speaker not found" := by
  simp only [GPTSovits.infer]
  rw [h]
  rfl

/-- Witness for C5 on an empty registry. -/
theorem infer_missing_speaker_error_witness :
    emptyG.speakers "ghost" = none ∧
    GPTSovits.infer gpb0 emptyG "ghost" "hello" = .error "speaker not found" :=
  ⟨rfl, infer_missing_speaker_error gpb0 emptyG "ghost" "hello" rfl⟩

/-- Successful bind in Except factors through a successful first step. -/
theorem except_bind_ok {α β : Type} {x : Except String α}
    {f : α → Except String β} {b : β} (h : x.bind f = .ok b) :
    ∃ a, x = .ok a ∧ f a = .ok b := by
  cases x with
  | error e => simp [Except.bind] at h
  | ok a => exact ⟨a, rfl, by simpa [Except.bind] using h⟩

/-- A loader that always fails. -/
def loadFail : String → Device → Except String CModule :=
  fun _ _ => .error "load failed"

/-- A loader that always yields the working module cmOk. -/
def loadOk : String → Device → Except String CModule :=
  fun _ _ => .ok cmOk

/-- An orchestrator with an empty registry and the working ssl module. -/
def gOk : GPTSovits := { emptyG with ssl := cmOk }

/-- C6: a failing enrollment step returns the error and leaves the registry —
indeed the whole orchestrator state — unchanged; insertion only happens after
every prior step has succeeded. -/
theorem create_speaker_error_keeps_registry
    (load : String → Device → Except String CModule) (gpb : GetPhoneAndBert)
    (g : GPTSovits) (name path : String) (samples : List Int) (sr : Nat)
    (rt : String) (e : String)
    (h : (g.create_speaker load gpb name path samples sr rt).1 = .error e) :
    g.create_speaker load gpb name path samples sr rt = (.error e, g) := by
  cases hb : g.buildSpeaker load gpb name path samples sr rt with
  | error e2 =>
      have hc : g.create_speaker load gpb name path samples sr rt =
          (.error e2, g) := by
        simp [GPTSovits.create_speaker, hb]
      rw [hc] at h
      injection h with h2
      rw [hc, h2]
  | ok sp =>
      have hc : (g.create_speaker load gpb name path samples sr rt).1 =
          .ok () := by
        simp [GPTSovits.create_speaker, hb]
      rw [hc] at h
      exact absurd h (by simp)

/-- Witness for C6: a failing model-handle load aborts enrollment with the
registry untouched. -/
theorem create_speaker_error_keeps_registry_witness :
    emptyG.create_speaker loadFail gpb0 "A" "p" [1] 44100 "hi" =
      (.error "load failed", emptyG) :=
  create_speaker_error_keeps_registry loadFail gpb0 emptyG "A" "p" [1] 44100
    "hi" "load failed" rfl

/-- The Speaker record that a successful enrollment step sequence produces
from a loaded module, transcript, extracted features and phoneme/embedding
pair. -/
def refBundle (name : String) (m : CModule) (t : String) (c a32 : Tensor)
    (pb : Tensor × Tensor) : Speaker :=
  { name := name, gpt_sovits := m.set_eval, ref_text := normalizeRefText t,
    ssl_content := c, ref_audio_32k := a32, ref_phone_seq := pb.1,
    ref_bert_seq := pb.2 }

/-- C7: after a second successful enrollment under the same name, the registry
entry for that name is exactly the bundle built from the second call's data
(model handle loaded from the second path, second reference audio resampled,
second normalized transcript, second phoneme/embedding sequences), and a
subsequent infer for that name dispatches to that second bundle. -/
theorem create_speaker_replaces_prior_entry
    (load : String → Device → Except String CModule) (gpb : GetPhoneAndBert)
    (g g1 g2 : GPTSovits) (name p1 t1 p2 t2 : String) (s1 s2 : List Int)
    (sr1 sr2 : Nat) (m2 : CModule) (a16 c16 a32 : Tensor)
    (pb2 : Tensor × Tensor) (txt : String)
    (h1 : g.create_speaker load gpb name p1 s1 sr1 t1 = (.ok (), g1))
    (h2 : g1.create_speaker load gpb name p2 s2 sr2 t2 = (.ok (), g2))
    (hload : load p2 g1.device = .ok m2)
    (h16 : g1.resample ((Tensor.from_slice s2).to_device.unsqueeze) sr2 16000 =
      .ok a16)
    (h32 : g1.resample ((Tensor.from_slice s2).to_device.unsqueeze) sr2 32000 =
      .ok a32)
    (hssl : g1.ssl.forward_ts [a16] = .ok c16)
    (hgpb : gpb g1 (normalizeRefText t2) = .ok pb2) :
    g2.speakers name = some (refBundle name m2 t2 c16 a32 pb2) ∧
    g2.infer gpb name txt = (gpb g2 txt).bind (fun pb =>
      (refBundle name m2 t2 c16 a32 pb2).infer pb.1 pb.2) := by
  have hb : g1.buildSpeaker load gpb name p2 s2 sr2 t2 =
      .ok (refBundle name m2 t2 c16 a32 pb2) := by
    simp [GPTSovits.buildSpeaker, bind, Except.bind, hload, h16, h32, hssl,
      hgpb, pure, Except.pure, refBundle]
  have hcr : g1.create_speaker load gpb name p2 s2 sr2 t2 =
      (.ok (), { g1 with speakers := insertSpeaker g1.speakers name (refBundle name m2 t2 c16 a32 pb2) }) := by
    simp [GPTSovits.create_speaker, hb]
  rw [hcr] at h2
  have hg2 := congrArg Prod.snd h2
  simp only at hg2
  subst hg2
  refine ⟨by simp [insertSpeaker], ?_⟩
  simp only [GPTSovits.infer]
  have hlook : insertSpeaker g1.speakers name (refBundle name m2 t2 c16 a32 pb2) name = some (refBundle name m2 t2 c16 a32 pb2) := by
    simp [insertSpeaker]
  rw [hlook]
  cases hpb : gpb { g1 with speakers := insertSpeaker g1.speakers name (refBundle name m2 t2 c16 a32 pb2) } txt with
  | error e => simp [bind, Except.bind]
  | ok pb =>
      simp only [bind, Except.bind]
      cases (refBundle name m2 t2 c16 a32 pb2).infer pb.1 pb.2 with
      | error e => rfl
      | ok a => rfl

/-- First enrollment state for the replacement scenario. -/
def g1W : GPTSovits :=
  (gOk.create_speaker loadOk gpb0 "A" "m1" [1] 44100 "one").2

/-- Second enrollment state for the replacement scenario. -/
def g2W : GPTSovits :=
  (g1W.create_speaker loadOk gpb0 "A" "m2" [2] 48000 "two").2

/-- Witness for C7: after enrolling "A" twice the registry holds the bundle
of the second call and infer dispatches to it. -/
theorem create_speaker_replaces_prior_entry_witness :
    g2W.speakers "A" =
      some (refBundle "A" cmOk "two" ⟨[2]⟩ ⟨[2]⟩ (⟨[4]⟩, ⟨[0]⟩)) ∧
    g2W.infer gpb0 "A" "hi" = (gpb0 g2W "hi").bind (fun pb =>
      (refBundle "A" cmOk "two" ⟨[2]⟩ ⟨[2]⟩ (⟨[4]⟩, ⟨[0]⟩)).infer pb.1 pb.2) :=
  create_speaker_replaces_prior_entry loadOk gpb0 gOk g1W g2W "A" "m1" "one"
    "m2" "two" [1] [2] 44100 48000 cmOk ⟨[2]⟩ ⟨[2]⟩ ⟨[2]⟩ (⟨[4]⟩, ⟨[0]⟩) "hi"
    rfl rfl rfl rfl rfl rfl rfl

/-- A successful buildSpeaker stores the normalized transcript. -/
theorem GPTSovits.buildSpeaker_ref_text
    (load : String → Device → Except String CModule) (gpb : GetPhoneAndBert)
    (g : GPTSovits) (name path : String) (samples : List Int) (sr : Nat)
    (rt : String) (sp : Speaker)
    (h : g.buildSpeaker load gpb name path samples sr rt = .ok sp) :
    sp.ref_text = normalizeRefText rt := by
  simp only [GPTSovits.buildSpeaker, bind] at h
  obtain ⟨m, hm, h⟩ := except_bind_ok h
  obtain ⟨a16, h16, h⟩ := except_bind_ok h
  obtain ⟨a32, h32, h⟩ := except_bind_ok h
  obtain ⟨c, hc, h⟩ := except_bind_ok h
  obtain ⟨pb, hpb, h⟩ := except_bind_ok h
  simp only [pure, Except.pure, Except.ok.injEq] at h
  subst h
  rfl

/-- The normalized transcript always ends in a sentence terminator. -/
theorem normalizeRefText_terminator (s : String) :
    (normalizeRefText s).data.getLast? = some '。' ∨
    (normalizeRefText s).data.getLast? = some '.' := by
  unfold normalizeRefText
  by_cases h : (s.data.getLast? = some '。' ∨ s.data.getLast? = some '.')
  · simp [h]
  · right
    simp only [h, if_false]
    rw [String.data_append]
    exact List.getLast?_concat s.data

/-- C8: a successful enrollment stores a transcript that ends with a sentence
terminator — unchanged when it already ends with one, with '.' appended
otherwise; in particular "Hello world" is stored as "Hello world.". -/
theorem create_speaker_ref_text_terminator
    (load : String → Device → Except String CModule) (gpb : GetPhoneAndBert)
    (g g2 : GPTSovits) (sp : Speaker) (name path : String)
    (samples : List Int) (sr : Nat) (rt : String)
    (h : g.create_speaker load gpb name path samples sr rt = (.ok (), g2))
    (hsp : g2.speakers name = some sp) :
    sp.ref_text = normalizeRefText rt ∧
    (sp.ref_text.data.getLast? = some '。' ∨
      sp.ref_text.data.getLast? = some '.') ∧
    normalizeRefText "Hello world" = "Hello world." := by
  cases hb : g.buildSpeaker load gpb name path samples sr rt with
  | error e =>
      have : g.create_speaker load gpb name path samples sr rt =
          (.error e, g) := by simp [GPTSovits.create_speaker, hb]
      rw [this] at h
      exact absurd (congrArg Prod.fst h) (by simp)
  | ok sp2 =>
      have hcr : g.create_speaker load gpb name path samples sr rt =
          (.ok (), { g with speakers := insertSpeaker g.speakers name sp2 }) := by
        simp [GPTSovits.create_speaker, hb]
      rw [hcr] at h
      have hg2 := congrArg Prod.snd h
      simp only at hg2
      subst hg2
      simp [insertSpeaker] at hsp
      obtain rfl : sp2 = sp := hsp
      have hrt := GPTSovits.buildSpeaker_ref_text load gpb g name path samples
        sr rt sp2 hb
      refine ⟨hrt, ?_, by decide⟩
      rw [hrt]
      exact normalizeRefText_terminator rt

/-- Enrollment state for the transcript-normalization scenario. -/
def g8W : GPTSovits :=
  (gOk.create_speaker loadOk gpb0 "B" "m" [3] 44100 "Hello world").2

/-- Witness for C8: enrolling with transcript "Hello world" stores
"Hello world.". -/
theorem create_speaker_ref_text_terminator_witness :
    (refBundle "B" cmOk "Hello world" ⟨[3]⟩ ⟨[3]⟩ (⟨[12]⟩, ⟨[0]⟩)).ref_text =
      normalizeRefText "Hello world" ∧
    ((refBundle "B" cmOk "Hello world" ⟨[3]⟩ ⟨[3]⟩
        (⟨[12]⟩, ⟨[0]⟩)).ref_text.data.getLast? = some '。' ∨
      (refBundle "B" cmOk "Hello world" ⟨[3]⟩ ⟨[3]⟩
        (⟨[12]⟩, ⟨[0]⟩)).ref_text.data.getLast? = some '.') ∧
    normalizeRefText "Hello world" = "Hello world." :=
  create_speaker_ref_text_terminator loadOk gpb0 gOk g8W
    (refBundle "B" cmOk "Hello world" ⟨[3]⟩ ⟨[3]⟩ (⟨[12]⟩, ⟨[0]⟩)) "B" "m"
    [3] 44100 "Hello world" rfl rfl

/-- Swap the resample implementation: replace the ssl module's named-method
table, leaving every other part of the orchestrator unchanged. -/
def GPTSovits.set_resampler (g : GPTSovits)
    (r : String → List IValue → Except String IValue) : GPTSovits :=
  { g with ssl := { g.ssl with method_is := r } }

/-- C9: a successful enrollment resamples the one source buffer to 16 kHz
(whose feature extraction is the stored ssl_content) and to 32 kHz (stored as
ref_audio_32k); and infer on the synthesis path performs no resampling — its
result is unchanged under an arbitrary replacement of the resample
implementation (provided the text front-end does not consult it either). -/
theorem enrollment_resamples_synthesis_does_not
    (load : String → Device → Except String CModule) (gpb : GetPhoneAndBert)
    (g g2 : GPTSovits) (sp : Speaker) (name path rt : String)
    (samples : List Int) (sr : Nat)
    (r : String → List IValue → Except String IValue) (speaker txt : String)
    (h : g.create_speaker load gpb name path samples sr rt = (.ok (), g2))
    (hsp : g2.speakers name = some sp)
    (hgpb : gpb (g.set_resampler r) = gpb g) :
    ((g.resample ((Tensor.from_slice samples).to_device.unsqueeze) sr
        16000).bind (fun a16 => g.ssl.forward_ts [a16]) =
      .ok sp.ssl_content) ∧
    g.resample ((Tensor.from_slice samples).to_device.unsqueeze) sr 32000 =
      .ok sp.ref_audio_32k ∧
    (g.set_resampler r).infer gpb speaker txt = g.infer gpb speaker txt := by
  have hindep : (g.set_resampler r).infer gpb speaker txt =
      g.infer gpb speaker txt := by
    simp only [GPTSovits.infer, hgpb]
    rfl
  cases hb : g.buildSpeaker load gpb name path samples sr rt with
  | error e =>
      have : g.create_speaker load gpb name path samples sr rt =
          (.error e, g) := by simp [GPTSovits.create_speaker, hb]
      rw [this] at h
      exact absurd (congrArg Prod.fst h) (by simp)
  | ok sp2 =>
      have hcr : g.create_speaker load gpb name path samples sr rt =
          (.ok (), { g with speakers := insertSpeaker g.speakers name sp2 }) := by
        simp [GPTSovits.create_speaker, hb]
      rw [hcr] at h
      have hg2 := congrArg Prod.snd h
      simp only at hg2
      subst hg2
      simp [insertSpeaker] at hsp
      obtain rfl : sp2 = sp := hsp
      simp only [GPTSovits.buildSpeaker, bind] at hb
      obtain ⟨m, hm, hb⟩ := except_bind_ok hb
      obtain ⟨a16, h16, hb⟩ := except_bind_ok hb
      obtain ⟨a32, h32, hb⟩ := except_bind_ok hb
      obtain ⟨c, hc, hb⟩ := except_bind_ok hb
      obtain ⟨pb, hpb, hb⟩ := except_bind_ok hb
      simp only [pure, Except.pure, Except.ok.injEq] at hb
      subst hb
      exact ⟨by simp [h16, Except.bind, hc], h32, hindep⟩

/-- Enrollment state for the resampling-policy scenario. -/
def g9W : GPTSovits :=
  (gOk.create_speaker loadOk gpb0 "C" "m" [5] 44100 "ref").2

/-- A replacement resample implementation that always fails. -/
def rFail : String → List IValue → Except String IValue :=
  fun _ _ => .error "no resample"

/-- Witness for C9 on a concrete enrollment and synthesis call. -/
theorem enrollment_resamples_synthesis_does_not_witness :
    ((gOk.resample ((Tensor.from_slice [5]).to_device.unsqueeze) 44100
        16000).bind (fun a16 => gOk.ssl.forward_ts [a16]) =
      .ok (refBundle "C" cmOk "ref" ⟨[5]⟩ ⟨[5]⟩
        (⟨[4]⟩, ⟨[0]⟩)).ssl_content) ∧
    gOk.resample ((Tensor.from_slice [5]).to_device.unsqueeze) 44100 32000 =
      .ok (refBundle "C" cmOk "ref" ⟨[5]⟩ ⟨[5]⟩
        (⟨[4]⟩, ⟨[0]⟩)).ref_audio_32k ∧
    (gOk.set_resampler rFail).infer gpb0 "C" "hi" =
      gOk.infer gpb0 "C" "hi" :=
  enrollment_resamples_synthesis_does_not loadOk gpb0 gOk g9W
    (refBundle "C" cmOk "ref" ⟨[5]⟩ ⟨[5]⟩ (⟨[4]⟩, ⟨[0]⟩)) "C" "m" "ref"
    [5] 44100 rFail "C" "hi" rfl rfl rfl

/-- A base build environment in which every asset loads. -/
def envBase : BuildEnv :=
  { load_on_device := loadOk, tokenizer_from_str := fun _ => .ok ⟨1⟩,
    g2pw_new_with_device := fun _ _ _ => .ok ⟨2⟩,
    g2pw_tokenizer_src := "tokenizer.json", symbols := [] }

/-- Environment in which only the ssl model fails to load. -/
def envSslFail : BuildEnv :=
  { envBase with load_on_device := fun p _ => if p = "ssl.pt" then .error "ssl load failed" else .ok cmOk }

/-- Environment in which only the CJK bert model fails to load. -/
def envBertFail : BuildEnv :=
  { envBase with load_on_device := fun p _ => if p = "bert.pt" then .error "bert load failed" else .ok cmOk }

/-- Environment in which only the g2pw converter fails to load. -/
def envG2pwFail : BuildEnv :=
  { envBase with g2pw_new_with_device := fun _ _ _ => .error "g2pw load failed" }

/-- A configuration without the Chinese setting. -/
def cfgPlain : GPTSovitsConfig := GPTSovitsConfig.new "ssl.pt" "g2p_en.pt"

/-- A configuration with the Chinese setting enabled. -/
def cfgCn : GPTSovitsConfig :=
  (GPTSovitsConfig.new "ssl.pt" "g2p_en.pt").with_chinese "g2pw.pt" "bert.pt"

/-- C10: build panics (unwrap) when the ssl model fails to load instead of
surfacing an Err, whereas a failing CJK bert load or g2pw converter load is
propagated as an Err. -/
theorem build_panics_on_ssl_load_failure (env : BuildEnv)
    (cfg : GPTSovitsConfig) (device : Device) (e : String)
    (g2pw_path cn_bert_path : String) (tok : Tokenizer) (bert : CModule) :
    (cfg.cn_setting = none →
      env.load_on_device cfg.ssl_path device = .error e →
      cfg.build env device = .panic e) ∧
    (cfg.cn_setting = some (g2pw_path, cn_bert_path) →
      env.tokenizer_from_str env.g2pw_tokenizer_src = .ok tok →
      env.load_on_device cn_bert_path device = .error e →
      cfg.build env device = .err e) ∧
    (cfg.cn_setting = some (g2pw_path, cn_bert_path) →
      env.tokenizer_from_str env.g2pw_tokenizer_src = .ok tok →
      env.load_on_device cn_bert_path device = .ok bert →
      env.g2pw_new_with_device g2pw_path tok device = .error e →
      cfg.build env device = .err e) := by
  refine ⟨fun h1 h2 => ?_, fun h1 h2 h3 => ?_, fun h1 h2 h3 h4 => ?_⟩
  · simp [GPTSovitsConfig.build, h1, h2, bind, Except.bind, pure, Except.pure]
  · simp [GPTSovitsConfig.build, h1, h2, h3, bind, Except.bind, pure,
      Except.pure]
  · simp [GPTSovitsConfig.build, h1, h2, h3, h4, bind, Except.bind, pure,
      Except.pure]

/-- Witness for C10 in three concrete environments. -/
theorem build_panics_on_ssl_load_failure_witness :
    cfgPlain.build envSslFail Device.Cpu = .panic "ssl load failed" ∧
    cfgCn.build envBertFail Device.Cpu = .err "bert load failed" ∧
    cfgCn.build envG2pwFail Device.Cpu = .err "g2pw load failed" :=
  ⟨(build_panics_on_ssl_load_failure envSslFail cfgPlain Device.Cpu
      "ssl load failed" "x" "y" ⟨1⟩ cmOk).1 rfl rfl,
   (build_panics_on_ssl_load_failure envBertFail cfgCn Device.Cpu
      "bert load failed" "g2pw.pt" "bert.pt" ⟨1⟩ cmOk).2.1 rfl rfl rfl,
   (build_panics_on_ssl_load_failure envG2pwFail cfgCn Device.Cpu
      "g2pw load failed" "g2pw.pt" "bert.pt" ⟨1⟩ cmOk).2.2 rfl rfl rfl rfl⟩

end GPTSovitsRs
